import Mathlib

/-!
Shallow embedding of the scoring core of `src/app.py` (Startup Scoring Tool).

Conventions of the embedding:
* A Python dict field that the code reads with `data.get(key, default)` is
  modelled as an `Option` field on a structure; `Option.none` models the
  absence of the key, `some v` a present (well-typed) value.
* `data.get("emails", [])` is modelled as a plain `List EmailEntry`
  (absent key and empty list are observationally identical in the code).
* Python exceptions that the code can raise inside `score_startup`
  (the bracket access `email["type"]` raises `KeyError` when an email
  entry has no `type` key) are modelled with `Except String`.
* `str.lower()` is modelled as character-wise `Char.toLower` on the
  string's character list (the strings compared by the code are ASCII).
-/

namespace StartupScoring

/-- One entry of the `emails` list of a Hunter enrichment record, restricted
to the keys `score_startup` reads: `type` (read with bracket access, so a
missing key raises), `confidence` (read with `.get("confidence", 0)`) and
`position` (read with `.get("position")`). -/
structure EmailEntry where
  type : Option String
  confidence : Option Int
  position : Option String
deriving Repr, DecidableEq

/-- The enrichment record consumed by `score_startup`, restricted to the
keys the function reads: `organization`, `domain`, `industry`,
`emails_count`, `employees` (note: the code reads the key `employees`,
not `employees_count`), `webmail` and `emails`.  Any other key of the
Python dict is never consulted by the function and hence not modelled. -/
structure Record where
  organization : Option String
  domain : Option String
  industry : Option String
  emails_count : Option Int
  employees : Option Int
  webmail : Option Bool
  emails : List EmailEntry
deriving Repr, DecidableEq

/-- A result row.  `score_startup` returns a dict with the six keys
`organization`, `domain`, `industry`, `emails_found`, `employees`,
`score`; the pipeline later attaches a seventh column `score_group` to
some frames.  `score_group = Option.none` models the absence of that
key/column, `employees = Option.none` models the string `"N/A"`
(substituted by `employees or "N/A"` when the count is falsy). -/
structure ScoreResult where
  organization : String
  domain : Option String
  industry : String
  emails_found : Int
  employees : Option Int
  score : Int
  score_group : Option String
deriving Repr, DecidableEq

instance {ε α : Type} [DecidableEq ε] [DecidableEq α] : DecidableEq (Except ε α) :=
  fun a b =>
    match a, b with
    | Except.ok x, Except.ok y =>
        if h : x = y then Decidable.isTrue (by rw [h])
        else Decidable.isFalse (by intro hc; injection hc; contradiction)
    | Except.error x, Except.error y =>
        if h : x = y then Decidable.isTrue (by rw [h])
        else Decidable.isFalse (by intro hc; injection hc; contradiction)
    | Except.ok _, Except.error _ => Decidable.isFalse (by intro hc; cases hc)
    | Except.error _, Except.ok _ => Decidable.isFalse (by intro hc; cases hc)

/-- `str.lower()`, character-wise (ASCII). -/
def lower (s : String) : String := String.mk (s.data.map Char.toLower)

/-- Email-volume term (app.py lines 60-61):
`if email_count: score += min(30, email_count * 10)`. -/
def emailVolumeTerm (email_count : Int) : Int :=
  if email_count ≠ 0 then min 30 (email_count * 10) else 0

/-- Industry term (app.py lines 62-63):
`if industry and industry.lower() in ["software", "technology", "saas"]`. -/
def industryTerm (industry : String) : Int :=
  if industry ≠ "" ∧ lower industry ∈ ["software", "technology", "saas"]
  then 10 else 0

/-- Headcount term (app.py lines 64-65): `if employees and employees > 10`. -/
def headcountTerm (employees : Int) : Int :=
  if employees ≠ 0 ∧ employees > 10 then 20 else 0

/-- Webmail term (app.py lines 66-67): `if data.get("webmail"): score += 10`. -/
def webmailTerm (webmail : Option Bool) : Int :=
  if webmail = some true then 10 else 0

/-- Confidence sub-bonus of one email entry (app.py lines 71-72):
`if email.get("confidence", 0) >= 80: score += 10`. -/
def confidenceBonus (confidence : Int) : Int :=
  if confidence ≥ 80 then 10 else 0

/-- Position sub-bonus of one email entry (app.py lines 73-78):
`if email.get("position") and email["position"].lower() in ["ceo", "founder", "cto"]`. -/
def positionBonus (position : Option String) : Int :=
  match position with
  | Option.none => 0
  | some p => if p ≠ "" ∧ lower p ∈ ["ceo", "founder", "cto"] then 5 else 0

/-- Bonus contributed by one email entry (app.py lines 70-78).  The bracket
access `email["type"]` raises `KeyError` when the entry has no `type` key;
entries whose type is neither `"generic"` nor `"personal"` contribute 0. -/
def emailBonus (e : EmailEntry) : Except String Int :=
  match e.type with
  | Option.none => Except.error "KeyError: type"
  | some t =>
      if t = "generic" ∨ t = "personal"
      then Except.ok (confidenceBonus (e.confidence.getD 0) + positionBonus e.position)
      else Except.ok 0

/-- The `for email in data.get("emails", [])` loop (app.py lines 69-78),
summing the per-email bonuses; the first raised `KeyError` aborts the sum. -/
def emailsBonus : List EmailEntry → Except String Int
  | [] => Except.ok 0
  | e :: es =>
      match emailBonus e with
      | Except.error msg => Except.error msg
      | Except.ok b =>
          match emailsBonus es with
          | Except.error msg => Except.error msg
          | Except.ok rest => Except.ok (b + rest)

/-- `score_startup` (app.py lines 52-87).  Reads
`org = data.get("organization", data.get("domain", "N/A"))`,
`industry = data.get("industry", "")`,
`email_count = data.get("emails_count", 0)`,
`employees = data.get("employees", 0)`, adds the four record-level terms
and the per-email bonuses, and returns the result dict of lines 80-87
(which carries no `score_group` key).  The only way the function can
raise is the `KeyError` from `email["type"]` inside the loop. -/
def score_startup (data : Record) : Except String ScoreResult :=
  match emailsBonus data.emails with
  | Except.error msg => Except.error msg
  | Except.ok bonus =>
      Except.ok
        { organization := data.organization.getD (data.domain.getD "N/A")
          domain := data.domain
          industry :=
            if data.industry.getD "" ≠ "" then data.industry.getD "" else "N/A"
          emails_found := data.emails_count.getD 0
          employees :=
            if data.employees.getD 0 ≠ 0 then some (data.employees.getD 0)
            else Option.none
          score :=
            emailVolumeTerm (data.emails_count.getD 0)
              + industryTerm (data.industry.getD "")
              + headcountTerm (data.employees.getD 0)
              + webmailTerm data.webmail
              + bonus
          score_group := Option.none }

/-- `classify_score` (app.py lines 184-190). -/
def classify_score (score : Int) : String :=
  if score ≥ 75 then "High" else if score ≥ 40 then "Mid" else "Low"

/-! Section: Batch pipeline (app.py lines 140-201) -/

/-- Outcome of one `requests.get` call in the batch loop: `ok data` models a
status-200 response carrying the parsed `data` dict; `fail` models a
non-200 status or any exception raised while fetching. -/
inductive FetchOutcome where
  | ok (data : Record)
  | fail
deriving Repr, DecidableEq

/-- The placeholder dict appended for a failed domain (app.py lines
158-167 / 169-178).  It carries no `score_group` key. -/
def placeholder (domain : String) : ScoreResult :=
  { organization := "N/A"
    domain := some domain
    industry := "N/A"
    emails_found := 0
    employees := Option.none
    score := 0
    score_group := Option.none }

/-- The body of the batch loop for one domain (app.py lines 150-178): a
successful fetch is scored with `score_startup`; a non-200 response, and
any exception raised while fetching or scoring (the bare `except:` wraps
the whole body), appends the placeholder instead. -/
def processDomain (fetch : String → FetchOutcome) (d : String) : ScoreResult :=
  match fetch d with
  | FetchOutcome.ok data =>
      match score_startup data with
      | Except.ok r => r
      | Except.error _ => placeholder d
  | FetchOutcome.fail => placeholder d

/-- The batch loop `for domain in df["domain"]` (app.py lines 149-179):
one result row per input domain, in input order. -/
def runBatch (fetch : String → FetchOutcome) (domains : List String) : List ScoreResult :=
  domains.map (processDomain fetch)

/-- One row is at least as high as another when its score is at least the
other's: the descending-by-score order used by
`sort_values(by="score", ascending=False)`. -/
def scoreGE (a b : ScoreResult) : Prop := b.score ≤ a.score

instance : DecidableRel scoreGE := fun a b => Int.decLe b.score a.score

instance : IsTotal ScoreResult scoreGE := ⟨fun a b => le_total b.score a.score⟩

instance : IsTrans ScoreResult scoreGE :=
  ⟨fun _ _ _ hab hbc => le_trans hbc hab⟩

/-- A frame `sorted` is a possible output of
`sort_values(by="score", ascending=False)` on the rows `results` exactly
when it is a permutation of them ordered descending by `score`.  This is
all the call guarantees: the code leaves `kind` at its default
`quicksort`, which pandas documents as not stable, so the order among
rows of equal score is unspecified (pandas sorts descending by
argsorting the reversed rows and reversing the resulting indexer, which
preserves the original tie order only for a stable `kind`). -/
def IsSortValuesOutput (results sorted : List ScoreResult) : Prop :=
  sorted.Perm results ∧ List.Sorted scoreGE sorted

instance (results sorted : List ScoreResult) :
    Decidable (IsSortValuesOutput results sorted) :=
  inferInstanceAs (Decidable (sorted.Perm results ∧ List.Sorted scoreGE sorted))

/-- `pd.DataFrame(results).sort_values(by="score", ascending=False)`
(app.py lines 181 and 194): an executable realization of the call,
sorting descending by `score`.  The call's contract
(`IsSortValuesOutput`) does not fix the order among equal scores, so no
theorem relies on the particular tie order this realization produces;
rows of distinct scores are ordered identically by every realization. -/
def sortByScoreDesc (results : List ScoreResult) : List ScoreResult :=
  List.insertionSort scoreGE results

/-- The full results frame as finally displayed and exported: line 194
re-creates it from the raw `results` list, so none of its rows carries a
`score_group` column. -/
def full_table (results : List ScoreResult) : List ScoreResult :=
  sortByScoreDesc results

/-- The frame built at app.py lines 181-192: the sorted results with
`score_group` attached to every row.  Line 194 overwrites the variable
holding it with a fresh sort of the raw `results`, discarding this frame. -/
def tagged_results (results : List ScoreResult) : List ScoreResult :=
  (sortByScoreDesc results).map
    (fun r => { r with score_group := some (classify_score r.score) })

/-- `head(10)` of a given sorted frame followed by the `score_group`
assignments of app.py lines 199-201 (the `astype(str)` on a string
column is the identity): the top-10 view is computed from whatever frame
line 194 produced, not by a second sort. -/
def top10_of (sorted : List ScoreResult) : List ScoreResult :=
  (sorted.take 10).map
    (fun r => { r with score_group := some (classify_score r.score) })

/-- `top10 = results_df.head(10)` with the line 199-201 tagging, applied
to the pipeline's full frame. -/
def top10 (results : List ScoreResult) : List ScoreResult :=
  top10_of (sortByScoreDesc results)

/-- Erase the `score_group` column of a row, for comparing the top-10
view with the full table row-content-wise. -/
def untag (r : ScoreResult) : ScoreResult := { r with score_group := Option.none }

/-! Section: Concrete records used by the claims -/

/-- The record with every optional key absent and `emails` empty. -/
def emptyRec : Record :=
  { organization := Option.none
    domain := Option.none
    industry := Option.none
    emails_count := Option.none
    employees := Option.none
    webmail := Option.none
    emails := [] }

/-- The end-to-end example record of the spec: note it carries an
`employees_count` key, which `score_startup` never reads (the function
reads the key `employees`, absent here), so that key is inert and the
embedded record has `employees := Option.none`. -/
def stripeRec : Record :=
  { organization := Option.none
    domain := some "stripe.com"
    industry := some "Technology"
    emails_count := some 2
    employees := Option.none
    webmail := some false
    emails := [{ type := some "generic", confidence := some 95, position := some "CTO" }] }

/-- The value `score_startup` actually returns on `stripeRec`. -/
def stripeResult : ScoreResult :=
  { organization := "stripe.com"
    domain := some "stripe.com"
    industry := "Technology"
    emails_found := 2
    employees := Option.none
    score := 45
    score_group := Option.none }

/-- One `"generic"` email with confidence 90 and position `"CEO"`. -/
def genericCEO : EmailEntry :=
  { type := some "generic", confidence := some 90, position := some "CEO" }

/-- A record whose only content is ten qualifying executive emails. -/
def tenRec : Record :=
  { emptyRec with emails := List.replicate 10 genericCEO }

/-- A record with one email entry carrying no `type` key. -/
def badRec : Record :=
  { emptyRec with
    domain := some "x.com"
    emails := [{ type := Option.none, confidence := Option.none, position := Option.none }] }

/-- A record with no `organization` and no `domain` key whose single
email entry carries no `type` key. -/
def noIdBadRec : Record :=
  { emptyRec with
    emails := [{ type := Option.none, confidence := Option.none, position := Option.none }] }

/-- Fetched record for the first batch domain `"a.com"` (scores 10). -/
def recA : Record :=
  { emptyRec with organization := some "Alpha", domain := some "a.com", emails_count := some 1 }

/-- The scored row for `recA`. -/
def resA : ScoreResult :=
  { organization := "Alpha"
    domain := some "a.com"
    industry := "N/A"
    emails_found := 1
    employees := Option.none
    score := 10
    score_group := Option.none }

/-- Fetched record for the third batch domain `"c.com"` (scores 40). -/
def recC : Record :=
  { emptyRec with
    organization := some "Gamma"
    domain := some "c.com"
    industry := some "saas"
    employees := some 50
    webmail := some true }

/-- The scored row for `recC`. -/
def resC : ScoreResult :=
  { organization := "Gamma"
    domain := some "c.com"
    industry := "saas"
    emails_found := 0
    employees := some 50
    score := 40
    score_group := Option.none }

/-- The three-domain batch of the partial-failure scenario. -/
def doms3 : List String := ["a.com", "b.com", "c.com"]

/-- A fetch collaborator that succeeds on `"a.com"` and `"c.com"` and
fails on every other domain, in particular on `"b.com"`. -/
def fetch3 : String → FetchOutcome := fun d =>
  if d = "a.com" then FetchOutcome.ok recA
  else if d = "c.com" then FetchOutcome.ok recC
  else FetchOutcome.fail

/-- The row returned by `score_startup` on the all-absent record. -/
def emptyResult : ScoreResult :=
  { organization := "N/A"
    domain := Option.none
    industry := "N/A"
    emails_found := 0
    employees := Option.none
    score := 0
    score_group := Option.none }

/-- On a successful run, the `organization` field of the result is
`data.get("organization", data.get("domain", "N/A"))`. -/
theorem score_startup_ok_organization (r : Record) (res : ScoreResult)
    (h : score_startup r = Except.ok res) :
    res.organization = r.organization.getD (r.domain.getD "N/A") := by
  unfold score_startup at h
  cases hb : emailsBonus r.emails with
  | error msg => rw [hb] at h; cases h
  | ok b => rw [hb] at h; injection h with h2; rw [← h2]

/-- When the email loop raises, the whole function raises. -/
theorem score_startup_error (r : Record) (msg : String)
    (hb : emailsBonus r.emails = Except.error msg) :
    score_startup r = Except.error msg := by
  unfold score_startup
  rw [hb]

/-- When the email loop returns a bonus, the returned score is the sum of
the four record-level terms and that bonus. -/
theorem score_startup_score (r : Record) (b : Int)
    (hb : emailsBonus r.emails = Except.ok b) :
    Except.map ScoreResult.score (score_startup r)
      = Except.ok (emailVolumeTerm (r.emails_count.getD 0)
          + industryTerm (r.industry.getD "")
          + headcountTerm (r.employees.getD 0)
          + webmailTerm r.webmail
          + b) := by
  unfold score_startup
  rw [hb]
  rfl

/-! Section: Claim theorems -/

/-- Claim C1, counterexample: on the spec's end-to-end example record
(which carries an `employees_count` key but no `employees` key),
`score_startup` does not return score 65 — the headcount term reads the
absent `employees` key and contributes 0. -/
theorem C1_counterexample :
    ¬ Except.map ScoreResult.score (score_startup stripeRec) = Except.ok 65 := by
  decide

/-- Claim C1, amended: on the example record, `score_startup` returns
score 45 = 20 (email volume) + 10 (industry) + 0 (headcount: the code
reads the key `employees`, which the record lacks; its `employees_count`
key is never read) + 0 (webmail false) + 10 (confidence) + 5 (position),
and the tier of 45 is `"Mid"`. -/
theorem C1_stripe_example :
    score_startup stripeRec = Except.ok stripeResult
    ∧ stripeResult.score = 45
    ∧ classify_score stripeResult.score = "Mid"
    ∧ emailVolumeTerm 2 = 20
    ∧ industryTerm "Technology" = 10
    ∧ headcountTerm 0 = 0
    ∧ webmailTerm (some false) = 0
    ∧ confidenceBonus 95 = 10
    ∧ positionBonus (some "CTO") = 5 := by
  decide

/-- Claim C5: the per-email bonus is uncapped — a list of n qualifying
executive emails contributes exactly 15 n, and the record with ten such
emails (and nothing else) receives total score 150 > 100; no clamp is
applied. -/
theorem C5_per_email_bonus_uncapped :
    (∀ n : Nat, emailsBonus (List.replicate n genericCEO) = Except.ok (15 * (n : Int)))
    ∧ Except.map ScoreResult.score (score_startup tenRec) = Except.ok 150
    ∧ (150 : Int) > 100 := by
  refine ⟨?_, by decide, by decide⟩
  intro n
  induction n with
  | zero => decide
  | succ k ih =>
      have h15 : emailBonus genericCEO = Except.ok 15 := by decide
      simp only [List.replicate_succ, emailsBonus, h15, ih]
      congr 1
      push_cast
      ring

/-- Claim C6: the email-volume term equals min(30, emails_count * 10)
whenever emails_count is nonzero, is 0 when emails_count is zero or the
key is absent, and never exceeds 30 (in particular 50 contributes 30). -/
theorem C6_email_volume_term :
    (∀ c : Int, c ≠ 0 → emailVolumeTerm c = min 30 (c * 10))
    ∧ emailVolumeTerm 0 = 0
    ∧ (∀ r : Record, r.emails_count = Option.none →
        emailVolumeTerm (r.emails_count.getD 0) = 0)
    ∧ (∀ c : Int, emailVolumeTerm c ≤ 30)
    ∧ emailVolumeTerm 50 = 30 := by
  refine ⟨?_, by decide, ?_, ?_, by decide⟩
  · intro c h
    simp [emailVolumeTerm, h]
  · intro r h
    rw [h]
    decide
  · intro c
    unfold emailVolumeTerm
    split
    · exact min_le_left 30 (c * 10)
    · norm_num

/-- Witness for C6 at emails_count = 50. -/
theorem C6_email_volume_term_witness : emailVolumeTerm 50 = min 30 (50 * 10) :=
  C6_email_volume_term.1 50 (by decide)

/-- Claim C7: tier classification is a pure function of the score with
inclusive lower band edges: 75 and above is "High", 40 to 74 is "Mid",
below 40 is "Low"; in particular 75, 74, 40, 39 map to "High", "Mid",
"Mid", "Low". -/
theorem C7_tier_classification :
    (∀ s : Int, 75 ≤ s → classify_score s = "High")
    ∧ (∀ s : Int, 40 ≤ s → s < 75 → classify_score s = "Mid")
    ∧ (∀ s : Int, s < 40 → classify_score s = "Low")
    ∧ classify_score 75 = "High"
    ∧ classify_score 74 = "Mid"
    ∧ classify_score 40 = "Mid"
    ∧ classify_score 39 = "Low" := by
  refine ⟨?_, ?_, ?_, by decide, by decide, by decide, by decide⟩
  · intro s h
    unfold classify_score
    rw [if_pos h]
  · intro s h1 h2
    unfold classify_score
    rw [if_neg (by omega), if_pos h1]
  · intro s h
    unfold classify_score
    rw [if_neg (by omega), if_neg (by omega)]

/-- Witness for C7 at the band edges 75 and 39. -/
theorem C7_tier_classification_witness :
    classify_score 75 = "High" ∧ classify_score 39 = "Low" :=
  ⟨C7_tier_classification.1 75 (by decide),
   C7_tier_classification.2.2.1 39 (by decide)⟩

/-- When every email entry of the list carries a `type` key, the loop
raises nothing and produces a bonus sum. -/
theorem emailsBonus_ok_of_types (es : List EmailEntry)
    (h : ∀ e ∈ es, (e.type).isSome) : ∃ b, emailsBonus es = Except.ok b := by
  induction es with
  | nil => exact ⟨0, rfl⟩
  | cons e es ih =>
      obtain ⟨t, ht⟩ := Option.isSome_iff_exists.mp (h e (List.mem_cons_self e es))
      obtain ⟨b2, hb2⟩ := ih (fun x hx => h x (List.mem_cons_of_mem e hx))
      have hone : ∃ b1, emailBonus e = Except.ok b1 := by
        unfold emailBonus
        rw [ht]
        show ∃ b1, (if t = "generic" ∨ t = "personal"
            then Except.ok (confidenceBonus (e.confidence.getD 0) + positionBonus e.position)
            else Except.ok 0) = Except.ok b1
        split
        · exact ⟨_, rfl⟩
        · exact ⟨0, rfl⟩
      obtain ⟨b1, hb1⟩ := hone
      exact ⟨b1 + b2, by unfold emailsBonus; rw [hb1, hb2]⟩

/-- When every email entry carries a `type` key, `score_startup` returns
a result. -/
theorem score_startup_ok_of_types (r : Record)
    (h : ∀ e ∈ r.emails, (e.type).isSome) :
    ∃ res, score_startup r = Except.ok res := by
  obtain ⟨b, hb⟩ := emailsBonus_ok_of_types r.emails h
  refine ⟨{ organization := r.organization.getD (r.domain.getD "N/A")
            domain := r.domain
            industry :=
              if r.industry.getD "" ≠ "" then r.industry.getD "" else "N/A"
            emails_found := r.emails_count.getD 0
            employees :=
              if r.employees.getD 0 ≠ 0 then some (r.employees.getD 0)
              else Option.none
            score :=
              emailVolumeTerm (r.emails_count.getD 0)
                + industryTerm (r.industry.getD "")
                + headcountTerm (r.employees.getD 0)
                + webmailTerm r.webmail
                + b
            score_group := Option.none }, ?_⟩
  unfold score_startup
  rw [hb]

/-- Claim C10, counterexample: a record with both the `organization` and
`domain` keys absent whose single email entry lacks the `type` key does
not return a result at all — `score_startup` raises `KeyError` at
app.py line 70 — so not every such record yields a result with
organization "N/A". -/
theorem C10_counterexample :
    noIdBadRec.organization = Option.none
    ∧ noIdBadRec.domain = Option.none
    ∧ score_startup noIdBadRec = Except.error "KeyError: type"
    ∧ ¬ ∃ res, score_startup noIdBadRec = Except.ok res := by
  refine ⟨rfl, rfl, by decide, ?_⟩
  rintro ⟨res, h⟩
  rw [show score_startup noIdBadRec = Except.error "KeyError: type" from by decide] at h
  cases h

/-- Claim C10, amended: whenever `score_startup` does return a result
(equivalently, whenever every email entry carries a `type` key — the
only raising access), its organization field falls back from the
`organization` key to the `domain` key to the literal "N/A"; in
particular every record with both keys absent whose email entries carry
`type` keys returns a result with organization "N/A". -/
theorem C10_organization_fallback :
    (∀ (r : Record) (res : ScoreResult), r.organization = Option.none →
        r.domain = Option.none → score_startup r = Except.ok res →
        res.organization = "N/A")
    ∧ (∀ (r : Record) (res : ScoreResult) (o : String), r.organization = some o →
        score_startup r = Except.ok res → res.organization = o)
    ∧ (∀ (r : Record) (res : ScoreResult) (d : String), r.organization = Option.none →
        r.domain = some d → score_startup r = Except.ok res → res.organization = d)
    ∧ Except.map ScoreResult.organization (score_startup emptyRec) = Except.ok "N/A"
    ∧ (∀ r : Record, r.organization = Option.none → r.domain = Option.none →
        (∀ e ∈ r.emails, (e.type).isSome) →
        ∃ res, score_startup r = Except.ok res ∧ res.organization = "N/A") := by
  refine ⟨?_, ?_, ?_, by decide, ?_⟩
  · intro r res h1 h2 hok
    rw [score_startup_ok_organization r res hok, h1, h2]
    rfl
  · intro r res o h1 hok
    rw [score_startup_ok_organization r res hok, h1]
    rfl
  · intro r res d h1 h2 hok
    rw [score_startup_ok_organization r res hok, h1, h2]
    rfl
  · intro r h1 h2 h3
    obtain ⟨res, hres⟩ := score_startup_ok_of_types r h3
    refine ⟨res, hres, ?_⟩
    rw [score_startup_ok_organization r res hres, h1, h2]
    rfl

/-- Witness for C10 on the all-absent record. -/
theorem C10_organization_fallback_witness : emptyResult.organization = "N/A" :=
  C10_organization_fallback.1 emptyRec emptyResult rfl rfl (by decide)

/-- Claim C8, counterexample: `score_startup` is not total — on a record
whose single email entry lacks the `type` key, the bracket access
`email["type"]` raises `KeyError` and no result is returned. -/
theorem C8_counterexample :
    score_startup badRec = Except.error "KeyError: type"
    ∧ ¬ ∃ res, score_startup badRec = Except.ok res := by
  refine ⟨by decide, ?_⟩
  rintro ⟨res, h⟩
  rw [show score_startup badRec = Except.error "KeyError: type" from by decide] at h
  cases h

/-- Claim C8, amended: `score_startup` never raises on any record whose
email entries each carry a `type` key; every other absent optional field
is coerced to its zero-equivalent by the `.get` defaults rather than
raising. -/
theorem C8_total_when_email_types_present :
    ∀ r : Record, (∀ e ∈ r.emails, (e.type).isSome) →
      ∃ res, score_startup r = Except.ok res := by
  intro r h
  obtain ⟨b, hb⟩ := emailsBonus_ok_of_types r.emails h
  refine ⟨{ organization := r.organization.getD (r.domain.getD "N/A")
            domain := r.domain
            industry :=
              if r.industry.getD "" ≠ "" then r.industry.getD "" else "N/A"
            emails_found := r.emails_count.getD 0
            employees :=
              if r.employees.getD 0 ≠ 0 then some (r.employees.getD 0)
              else Option.none
            score :=
              emailVolumeTerm (r.emails_count.getD 0)
                + industryTerm (r.industry.getD "")
                + headcountTerm (r.employees.getD 0)
                + webmailTerm r.webmail
                + b
            score_group := Option.none }, ?_⟩
  unfold score_startup
  rw [hb]

/-- Witness for the amended C8 on the ten-email record. -/
theorem C8_total_when_email_types_present_witness :
    ∃ res, score_startup tenRec = Except.ok res :=
  C8_total_when_email_types_present tenRec (by decide)

/-- Claim C2, counterexample: in the three-domain batch whose second
fetch fails, the second result is the placeholder for "b.com", but that
placeholder carries no `score_group` key (the claim says it carries
`score_group = "Low"`); `score_group` is only attached downstream. -/
theorem C2_counterexample :
    (runBatch fetch3 doms3)[1]? = some (placeholder "b.com")
    ∧ ¬ (placeholder "b.com").score_group = some "Low" := by
  decide

/-- Claim C2, amended: the batch loop returns exactly one result per
input domain in input order; a fetch failure (non-success status or any
exception raised while fetching or scoring) never aborts the batch — the
failed domain yields the fixed placeholder (organization "N/A", the
input domain, industry "N/A", emails_found 0, employees "N/A", score 0 —
with no score_group key attached in the loop) and processing continues;
in the three-domain batch failing on the second domain, the loop returns
exactly the three rows with the second the placeholder and the first and
third correctly scored. -/
theorem C2_batch_partial_failure :
    (∀ (fetch : String → FetchOutcome) (doms : List String),
        (runBatch fetch doms).length = doms.length)
    ∧ (∀ (fetch : String → FetchOutcome) (doms : List String) (i : Nat),
        (runBatch fetch doms)[i]? = (doms[i]?).map (processDomain fetch))
    ∧ (∀ (fetch : String → FetchOutcome) (d : String),
        fetch d = FetchOutcome.fail → processDomain fetch d = placeholder d)
    ∧ (∀ (fetch : String → FetchOutcome) (d : String) (data : Record) (msg : String),
        fetch d = FetchOutcome.ok data → score_startup data = Except.error msg →
        processDomain fetch d = placeholder d)
    ∧ (∀ (fetch : String → FetchOutcome) (d : String) (data : Record) (res : ScoreResult),
        fetch d = FetchOutcome.ok data → score_startup data = Except.ok res →
        processDomain fetch d = res)
    ∧ runBatch fetch3 doms3 = [resA, placeholder "b.com", resC]
    ∧ score_startup recA = Except.ok resA
    ∧ score_startup recC = Except.ok resC := by
  refine ⟨?_, ?_, ?_, ?_, ?_, by decide, by decide, by decide⟩
  · intro fetch doms
    simp [runBatch]
  · intro fetch doms i
    simp [runBatch, List.getElem?_map]
  · intro fetch d h
    unfold processDomain
    rw [h]
  · intro fetch d data msg h1 h2
    unfold processDomain
    rw [h1]
    show (match score_startup data with
          | Except.ok r => r
          | Except.error _ => placeholder d) = placeholder d
    rw [h2]
  · intro fetch d data res h1 h2
    unfold processDomain
    rw [h1]
    show (match score_startup data with
          | Except.ok r => r
          | Except.error _ => placeholder d) = res
    rw [h2]

/-- Witness for the amended C2: the failing second domain of the
three-domain batch is substituted by its placeholder. -/
theorem C2_batch_partial_failure_witness :
    processDomain fetch3 "b.com" = placeholder "b.com" :=
  C2_batch_partial_failure.2.2.1 fetch3 "b.com" (by decide)

/-- Claim C3 (code bug at app.py line 194): in the final full results
frame no row carries a `score_group` at all — line 194 re-creates the
frame from the raw results, discarding the `score_group` column computed
at line 192 — so the claim fails on the displayed/exported full table;
the discarded line-181..192 frame and the top-10 view do attach
`classify_score` of the row's score to every row, placeholders
included. -/
theorem C3_full_table_missing_score_group :
    (full_table (runBatch fetch3 doms3)).map ScoreResult.score_group
      = [Option.none, Option.none, Option.none]
    ∧ ¬ (∀ t ∈ full_table (runBatch fetch3 doms3),
          t.score_group = some (classify_score t.score))
    ∧ (∀ t ∈ tagged_results (runBatch fetch3 doms3),
          t.score_group = some (classify_score t.score))
    ∧ (∀ t ∈ top10 (runBatch fetch3 doms3),
          t.score_group = some (classify_score t.score)) := by
  refine ⟨by decide, ?_, by decide, by decide⟩
  intro h
  have h2 := h (placeholder "b.com") (by decide)
  exact absurd h2 (by decide)

/-! Section: Sorting and the top-10 view -/

/-- A fetch collaborator that fails on every domain. -/
def failFetch : String → FetchOutcome := fun _ => FetchOutcome.fail

/-- Claim C4, counterexample to the tie-stability conjunct: the batch
over the domains "x.com", "y.com" (both fetches failing) produces two
placeholder rows with equal score 0 in fetch order; the reversed frame
is also a `sort_values` output under the call's contract — a descending
permutation — yet it does not preserve the fetch order among the equal
scores.  The code leaves `kind` at its default `quicksort`, which pandas
documents as not stable, so the program does not guarantee which of the
two conforming frames is produced. -/
theorem C4_counterexample :
    runBatch failFetch ["x.com", "y.com"]
        = [placeholder "x.com", placeholder "y.com"]
    ∧ (placeholder "x.com").score = (placeholder "y.com").score
    ∧ IsSortValuesOutput (runBatch failFetch ["x.com", "y.com"])
        [placeholder "y.com", placeholder "x.com"]
    ∧ [placeholder "y.com", placeholder "x.com"]
        ≠ [placeholder "x.com", placeholder "y.com"] := by
  refine ⟨by decide, by decide, ⟨?_, by decide⟩, by decide⟩
  rw [show runBatch failFetch ["x.com", "y.com"]
      = [placeholder "x.com", placeholder "y.com"] from by decide]
  exact List.Perm.swap (placeholder "x.com") (placeholder "y.com") []

/-- Claim C4, amended: the pipeline's full frame is a `sort_values`
output for the batch rows — a permutation of them sorted descending by
score (the order among equal scores is whatever the default, unstable
`quicksort` produces; it is not guaranteed to preserve fetch order) —
and the top-10 view is computed from that same frame: for every frame
the sort call could produce, the top-10 view is, row-content-wise,
exactly the first min(10, n) rows of that frame — a prefix, not a
separately sorted subset with different tie-breaking. -/
theorem C4_sorted_descending_top10_same_frame :
    (∀ results : List ScoreResult,
        IsSortValuesOutput results (full_table results)
        ∧ top10 results = top10_of (full_table results))
    ∧ (∀ results sorted : List ScoreResult,
        IsSortValuesOutput results sorted →
        (top10_of sorted).map untag = (sorted.map untag).take 10
        ∧ (top10_of sorted).length = min 10 results.length) := by
  constructor
  · intro results
    exact ⟨⟨List.perm_insertionSort scoreGE results,
      List.sorted_insertionSort scoreGE results⟩, rfl⟩
  · intro results sorted hout
    constructor
    · unfold top10_of untag
      rw [List.map_map, ← List.map_take]
      rfl
    · unfold top10_of
      rw [List.length_map, List.length_take, hout.1.length_eq]

/-- Witness for the amended C4: the three-domain batch's own full frame
is a conforming sort output, and its top-10 view is the take-10 prefix
of it. -/
theorem C4_sorted_descending_top10_same_frame_witness :
    (top10_of (full_table (runBatch fetch3 doms3))).map untag
      = ((full_table (runBatch fetch3 doms3)).map untag).take 10
    ∧ (top10_of (full_table (runBatch fetch3 doms3))).length
      = min 10 (runBatch fetch3 doms3).length :=
  C4_sorted_descending_top10_same_frame.2 (runBatch fetch3 doms3)
    (full_table (runBatch fetch3 doms3)) (by decide)

/-! Section: Case-insensitivity of industry and position matching -/

/-- Lowering a string preserves emptiness. -/
theorem lower_eq_empty_iff (s : String) : lower s = "" ↔ s = "" := by
  rw [String.ext_iff, String.ext_iff]
  show s.data.map Char.toLower = ("" : String).data ↔ s.data = ("" : String).data
  constructor
  · intro h
    exact List.map_eq_nil_iff.mp h
  · intro h
    rw [h]
    rfl

/-- The industry term only looks at the lowered industry string. -/
theorem industryTerm_congr {s t : String} (h : lower s = lower t) :
    industryTerm s = industryTerm t := by
  have he : s = "" ↔ t = "" := by
    rw [← lower_eq_empty_iff s, ← lower_eq_empty_iff t, h]
  unfold industryTerm
  exact if_congr (and_congr (not_congr he) (by rw [h])) rfl rfl

/-- The position bonus only looks at the lowered position string. -/
theorem positionBonus_congr {s t : String} (h : lower s = lower t) :
    positionBonus (some s) = positionBonus (some t) := by
  have he : s = "" ↔ t = "" := by
    rw [← lower_eq_empty_iff s, ← lower_eq_empty_iff t, h]
  unfold positionBonus
  exact if_congr (and_congr (not_congr he) (by rw [h])) rfl rfl

/-- Changing only the case of an entry's position leaves its bonus
unchanged. -/
theorem emailBonus_position_congr (e : EmailEntry) {s t : String}
    (h : lower s = lower t) :
    emailBonus { e with position := some s } = emailBonus { e with position := some t } := by
  cases e with
  | mk ty conf pos =>
      cases ty with
      | none => rfl
      | some t2 =>
          show (if t2 = "generic" ∨ t2 = "personal"
              then Except.ok (confidenceBonus (conf.getD 0) + positionBonus (some s))
              else Except.ok 0)
            = (if t2 = "generic" ∨ t2 = "personal"
              then Except.ok (confidenceBonus (conf.getD 0) + positionBonus (some t))
              else Except.ok 0)
          rw [positionBonus_congr h]

/-- Unfolding equation of the loop sum on a cons cell. -/
theorem emailsBonus_cons (e : EmailEntry) (es : List EmailEntry) :
    emailsBonus (e :: es)
      = match emailBonus e with
        | Except.error msg => Except.error msg
        | Except.ok b =>
            match emailsBonus es with
            | Except.error msg => Except.error msg
            | Except.ok rest => Except.ok (b + rest) := rfl

/-- Replacing one entry by one with the same bonus leaves the loop sum
unchanged. -/
theorem emailsBonus_append_congr {a b : EmailEntry}
    (h : emailBonus a = emailBonus b) :
    ∀ pre post : List EmailEntry,
      emailsBonus (pre ++ a :: post) = emailsBonus (pre ++ b :: post) := by
  intro pre
  induction pre with
  | nil =>
      intro post
      simp only [List.nil_append, emailsBonus_cons, h]
  | cons e pre ih =>
      intro post
      simp only [List.cons_append, emailsBonus_cons, ih post]

/-- Claim C9: the score is invariant under changing only the letter case
of the industry string or of one email entry's position string, and both
casings of "SaaS" earn the +10 industry term while both casings of
"Founder" earn the +5 position bonus. -/
theorem C9_case_insensitive :
    (∀ (r : Record) (s t : String), lower s = lower t →
        Except.map ScoreResult.score (score_startup { r with industry := some s })
          = Except.map ScoreResult.score (score_startup { r with industry := some t }))
    ∧ (∀ (r : Record) (pre post : List EmailEntry) (e : EmailEntry) (s t : String),
        lower s = lower t →
        Except.map ScoreResult.score
            (score_startup { r with emails := pre ++ { e with position := some s } :: post })
          = Except.map ScoreResult.score
            (score_startup { r with emails := pre ++ { e with position := some t } :: post }))
    ∧ industryTerm "SaaS" = 10 ∧ industryTerm "saas" = 10
    ∧ positionBonus (some "Founder") = 5 ∧ positionBonus (some "founder") = 5 := by
  refine ⟨?_, ?_, by decide, by decide, by decide, by decide⟩
  · intro r s t h
    cases hb : emailsBonus r.emails with
    | error msg =>
        rw [score_startup_error { r with industry := some s } msg hb,
          score_startup_error { r with industry := some t } msg hb]
    | ok b =>
        rw [score_startup_score { r with industry := some s } b hb,
          score_startup_score { r with industry := some t } b hb]
        show Except.ok (emailVolumeTerm (r.emails_count.getD 0) + industryTerm s
            + headcountTerm (r.employees.getD 0) + webmailTerm r.webmail + b)
          = Except.ok (emailVolumeTerm (r.emails_count.getD 0) + industryTerm t
            + headcountTerm (r.employees.getD 0) + webmailTerm r.webmail + b)
        rw [industryTerm_congr h]
  · intro r pre post e s t h
    have hbeq := emailsBonus_append_congr (emailBonus_position_congr e h) pre post
    cases hb : emailsBonus (pre ++ { e with position := some s } :: post) with
    | error msg =>
        rw [score_startup_error
            { r with emails := pre ++ { e with position := some s } :: post } msg hb,
          score_startup_error
            { r with emails := pre ++ { e with position := some t } :: post } msg
            (by rw [← hbeq]; exact hb)]
    | ok b =>
        rw [score_startup_score
            { r with emails := pre ++ { e with position := some s } :: post } b hb,
          score_startup_score
            { r with emails := pre ++ { e with position := some t } :: post } b
            (by rw [← hbeq]; exact hb)]

/-- Witness for C9: both casings of the industry "SaaS" produce the same
score on the otherwise-empty record. -/
theorem C9_case_insensitive_witness :
    Except.map ScoreResult.score (score_startup { emptyRec with industry := some "SaaS" })
      = Except.map ScoreResult.score (score_startup { emptyRec with industry := some "saas" }) :=
  C9_case_insensitive.1 emptyRec "SaaS" "saas" (by decide)

end StartupScoring
